import Mathlib

/-!
Verification development for the fitbit-sw repository.

The Python sources under `src/` are shallowly embedded as executable Lean
definitions.  Conventions used throughout:

* a Python dict field that the code accesses with `d['k']` (raising `KeyError`
  when absent) is an `Option` field read through an explicit match that
  produces `PyErr.keyError`;
* a field read with `d.get('k', default)` is an `Option` field read with
  `Option.getD`;
* timestamps are opaque `String` values: ISO-8601 parsing, `strftime`, and
  timezone normalisation are bijective bookkeeping on the textual form and are
  abstracted away, while string concatenations performed by the code (such as
  `f"{date} {time}"`) are kept literally;
* the MySQL connection is a record holding the durable (`committed`) state and
  the transaction-local (`current`) view, plus an event trace of cursor,
  execute, commit and rollback actions; `COMMIT` copies `current` into
  `committed`, `ROLLBACK` restores `current` from `committed`;
* `mysql.connector.IntegrityError` on a duplicate unique key is
  `PyErr.integrityError`.
-/

/-- Python exception outcomes that the embedded code can raise. -/
inductive PyErr where
  | keyError
  | indexError
  | integrityError
  deriving DecidableEq

/-- Error taxonomy of the authorization module (the source raises `ValueError`
with distinguishing messages; the spec names these `AuthorizationError` and
`NoRefreshTokenError`). -/
inductive AuthError where
  | authorizationError
  | noRefreshTokenError
  deriving DecidableEq

/-! ## Authorization module (`src/lib/auth.py`) -/

/-- The four token fields owned by `FitbitAuth`
(`access_token`, `refresh_token`, `token_type`, `expires_in`). -/
structure AuthState where
  access_token : Option String
  refresh_token : Option String
  token_type : Option String
  expires_in : Option Int
  deriving DecidableEq

/-- A parsed callback query string, as produced by `urllib.parse.parse_qs`:
a list of key/value pairs (blank values are dropped by `parse_qs`, so every
value is non-empty when it comes from a real request). -/
def lookupParam (query : List (String × String)) (k : String) : Option String :=
  (query.find? (fun p => p.1 = k)).map Prod.snd

/-- `CallbackHandler.do_GET` (auth.py:209-231): if the request query carries a
`code` parameter it is captured and the response status is 200, otherwise no
code is captured and the status is 400. -/
def handleCallback (query : List (String × String)) : Nat × Option String :=
  match lookupParam query "code" with
  | some c => (200, some c)
  | none => (400, none)

/-- `FitbitAuth._run_callback_server` (auth.py:195-241): the server is created,
`server.handle_request()` serves exactly one request, and the code captured by
the handler (if any) is returned.  The single served request is the function's
argument. -/
def run_callback_server (query : List (String × String)) : Option String :=
  (handleCallback query).2

/-- The arguments of an invocation of `exchange_code_for_token`. -/
structure ExchangeCall where
  code : String
  verifier : String
  deriving DecidableEq

/-- `FitbitAuth.authorize` (auth.py:169-193), from the point where the callback
server is started: it blocks on `run_callback_server` for the single callback
request; if no (non-empty) code was captured it raises
`ValueError('Authorization failed: No code received')` (the spec's
`AuthorizationError`); otherwise it invokes `exchange_code_for_token` with the
captured code and the verifier.  The returned `ExchangeCall` records that
invocation; the error branch performs none. -/
def authorize (code_verifier : String) (query : List (String × String)) :
    Except AuthError ExchangeCall :=
  match run_callback_server query with
  | none => .error .authorizationError
  | some c =>
      -- `if not auth_code:` — the empty string is falsy in Python
      if c = "" then .error .authorizationError
      else .ok ⟨c, code_verifier⟩

/-- The POST body of a token-refresh request (auth.py:153-156); headers are
the basic-auth client credentials, abstracted away. -/
structure TokenRequest where
  grant_type : String
  refresh_token : String
  deriving DecidableEq

/-- A parsed token-endpoint JSON response, read with `.get`. -/
structure TokenResponse where
  access_token : Option String
  refresh_token : Option String
  token_type : Option String
  expires_in : Option Int
  deriving DecidableEq

/-- `FitbitAuth.refresh_access_token` (auth.py:131-167).  `net` is the HTTP
collaborator (`requests.post`, abstracted to a function from the request body
to the parsed successful response).  The result is the new `AuthState`, the
outcome, and the list of network requests performed.  When
`not self.refresh_token` (absent or empty) the function raises
`ValueError('No refresh token available')` (the spec's `NoRefreshTokenError`)
before building any request, leaving the state untouched. -/
def refresh_access_token (st : AuthState) (net : TokenRequest → TokenResponse) :
    AuthState × Except AuthError TokenResponse × List TokenRequest :=
  match st.refresh_token with
  | none => (st, .error .noRefreshTokenError, [])
  | some rt =>
      if rt = "" then (st, .error .noRefreshTokenError, [])
      else
        let req : TokenRequest := ⟨"refresh_token", rt⟩
        let resp := net req
        ({ access_token := resp.access_token
           refresh_token := resp.refresh_token
           token_type := resp.token_type
           expires_in := resp.expires_in },
         .ok resp, [req])

/-- JSON values occurring in the token file. -/
inductive JVal where
  | jnull
  | jstr (s : String)
  | jint (n : Int)
  deriving DecidableEq

/-- Serialisation of an optional string field (`json.dump` writes `null` for
`None`). -/
def jsonOfStr : Option String → JVal
  | none => .jnull
  | some s => .jstr s

/-- Serialisation of an optional integer field. -/
def jsonOfInt : Option Int → JVal
  | none => .jnull
  | some n => .jint n

/-- `token_data.get(k)` on a parsed JSON object: the first binding of the key,
or `null` when absent. -/
def jget (obj : List (String × JVal)) (k : String) : JVal :=
  ((obj.find? (fun p => p.1 = k)).map Prod.snd).getD .jnull

/-- Reading back an optional string field. -/
def strOfJson : JVal → Option String
  | .jstr s => some s
  | _ => none

/-- Reading back an optional integer field. -/
def intOfJson : JVal → Option Int
  | .jint n => some n
  | _ => none

/-- `FitbitAuth.save_tokens` (auth.py:243-257): the JSON object written to the
file — a flat object with exactly the four token keys, in this order.  The
file system is abstracted: the stored content is the object itself. -/
def save_tokens (st : AuthState) : List (String × JVal) :=
  [("access_token", jsonOfStr st.access_token),
   ("refresh_token", jsonOfStr st.refresh_token),
   ("token_type", jsonOfStr st.token_type),
   ("expires_in", jsonOfInt st.expires_in)]

/-- `FitbitAuth.load_tokens` (auth.py:259-271): read the JSON object back and
populate the four fields with `token_data.get(...)`. -/
def load_tokens (obj : List (String × JVal)) : AuthState :=
  { access_token := strOfJson (jget obj "access_token")
    refresh_token := strOfJson (jget obj "refresh_token")
    token_type := strOfJson (jget obj "token_type")
    expires_in := intOfJson (jget obj "expires_in") }

/-! ## Sleep score (`SleepSync._calculate_sleep_score`, sync_sleep.py:151-187)

Python's float arithmetic is modelled with exact rationals; the literal
weights `0.30`, `0.40`, `0.30` become `30/100`, `40/100`, `30/100`.
`round` is Python 3's round-half-to-even. -/

/-- Python 3 `round(x)` on a rational: nearest integer, ties to even. -/
def pythonRound (q : ℚ) : ℤ :=
  let f := ⌊q⌋
  if q - f < 1 / 2 then f
  else if 1 / 2 < q - f then f + 1
  else if f % 2 = 0 then f else f + 1

/-- Duration component (sync_sleep.py:166-175): optimal is 7-9 hours, 20
points lost per hour outside the band, floored at 0. -/
def duration_score (minutes_asleep : ℚ) : ℚ :=
  let duration_hours := minutes_asleep / 60
  if 7 ≤ duration_hours ∧ duration_hours ≤ 9 then 100
  else if duration_hours < 7 then max 0 (100 - (7 - duration_hours) * 20)
  else max 0 (100 - (duration_hours - 9) * 20)

/-- Quality component (sync_sleep.py:177-178): `efficiency or 0` — the
efficiency percentage itself (Python's `or` maps the falsy 0 to 0). -/
def quality_score (efficiency : ℚ) : ℚ :=
  if efficiency = 0 then 0 else efficiency

/-- Restoration component (sync_sleep.py:180-182): interruption penalty capped
at 50, fall-asleep latency penalty, floored at 0. -/
def restoration_score (awake_count restless_count minutes_to_fall_asleep : ℚ) : ℚ :=
  let interruption_penalty := min 50 (awake_count * 5 + restless_count * 2)
  max 0 (100 - interruption_penalty - minutes_to_fall_asleep * 2)

/-! ## Sleep payload shapes (`src/sync/sync_sleep.py`) -/

/-- One entry of `levels.data` (the interval form of the payload): a stage
label, a start timestamp, and a duration in seconds.  The code reads `level`
with `.get('level', 'wake')`, reads `dateTime` with `entry['dateTime']`
(KeyError when absent), and never reads `seconds`. -/
structure LevelEntry where
  level : Option String
  dateTime : Option String
  seconds : Nat
  deriving DecidableEq

/-- One entry of classic `minuteData`: a time-of-day string and a stage code.
`dateTime` is read with `entry['dateTime']`, `value` with
`.get('value', '3')`. -/
structure ClassicEntry where
  dateTime : Option String
  value : Option String
  deriving DecidableEq

/-- A sleep session object of the payload's `sleep` list.  Fields the code
accesses with `session[...]` are `Option`s read through `PyErr.keyError`;
fields accessed with `.get` use `Option.getD`.  `levels` collapses the check
`'levels' in session and 'data' in session['levels']` into one option. -/
structure SleepSession where
  logId : Option Nat
  dateOfSleep : Option String
  startTime : Option String
  endTime : Option String
  duration : Option Nat
  efficiency : Option Nat
  isMainSleep : Option Bool
  awakeCount : Option Nat
  awakeDuration : Option Nat
  awakeningsCount : Option Nat
  restlessCount : Option Nat
  restlessDuration : Option Nat
  timeInBed : Option Nat
  minutesAsleep : Option Nat
  minutesAwake : Option Nat
  minutesToFallAsleep : Option Nat
  levels : Option (List LevelEntry)
  minuteData : Option (List ClassicEntry)
  deriving DecidableEq

/-- The fetched sleep payload: `sleep_data.get('sleep')`. -/
structure SleepPayload where
  sleep : Option (List SleepSession)
  deriving DecidableEq

/-- `SleepSync._calculate_sleep_score` (sync_sleep.py:151-187): weighted
average of the three components (30% duration, 40% quality, 30% restoration),
rounded.  All inputs default to 0 when absent. -/
def calculateSleepScore (s : SleepSession) : ℤ :=
  let minutes_asleep : ℚ := (s.minutesAsleep.getD 0 : ℕ)
  let efficiency : ℚ := (s.efficiency.getD 0 : ℕ)
  let awake_count : ℚ := (s.awakeCount.getD 0 : ℕ)
  let restless_count : ℚ := (s.restlessCount.getD 0 : ℕ)
  let minutes_to_fall_asleep : ℚ := (s.minutesToFallAsleep.getD 0 : ℕ)
  let sleep_score :=
    duration_score minutes_asleep * (30 / 100) +
    quality_score efficiency * (40 / 100) +
    restoration_score awake_count restless_count minutes_to_fall_asleep * (30 / 100)
  pythonRound sleep_score

/-! ## Sleep database model -/

/-- One row of the `sleep_minutes` table (unique key `(log_id, minute_time)`). -/
structure MinuteRecord where
  log_id : Nat
  minute_time : String
  sleep_stage : Nat
  deriving DecidableEq

/-- The sleep tables: `sleep_sessions` is tracked by its unique key `log_id`
(no claim reads the other session columns), `sleep_minutes` by its full rows. -/
structure SleepDb where
  sessions : List Nat
  minutes : List MinuteRecord
  deriving DecidableEq

/-- Cursor/connection actions recorded while syncing sleep. -/
inductive SleepEvent where
  | cursorOpen
  | cursorClose
  | execSession (log_id : Nat)
  | execMinute (r : MinuteRecord)
  | commit
  deriving DecidableEq

/-- A connection to the sleep tables: durable state, transaction-local view,
and the event trace. -/
structure SleepConn where
  committed : SleepDb
  current : SleepDb
  events : List SleepEvent
  deriving DecidableEq

/-- The unique keys of the minute rows visible to the transaction. -/
def minuteKeys (db : SleepDb) : List (Nat × String) :=
  db.minutes.map (fun r => (r.log_id, r.minute_time))

/-- One `cursor.execute` of the `sleep_minutes` INSERT wrapped in
`try/except IntegrityError: pass` (sync_sleep.py:228-232 and 274-278): the
insert is attempted, and a duplicate `(log_id, minute_time)` key is silently
skipped. -/
def insertMinuteRow (c : SleepConn) (r : MinuteRecord) : SleepConn :=
  if (r.log_id, r.minute_time) ∈ minuteKeys c.current then
    { c with events := c.events ++ [.execMinute r] }
  else
    { c with current := { c.current with minutes := c.current.minutes ++ [r] }
             events := c.events ++ [.execMinute r] }

/-- ASCII lowercasing of one character, as `str.lower` acts on the stage
labels in play (executable stand-in for `String.toLower`). -/
def charLower (ch : Char) : Char :=
  if 65 ≤ ch.toNat ∧ ch.toNat ≤ 90 then Char.ofNat (ch.toNat + 32) else ch

/-- Python's `str.lower()` on a stage label. -/
def pyLower (s : String) : String := ⟨s.data.map charLower⟩

/-- Stage-label normalisation (sync_sleep.py:199-204, 213):
`stage_map.get(stage, 0)` over lowercased labels, unknown labels map to 0. -/
def stage_map (s : String) : Nat :=
  if s = "wake" then 0
  else if s = "light" then 1
  else if s = "deep" then 2
  else if s = "rem" then 3
  else 0

/-- `SleepSync._insert_sleep_minutes` (sync_sleep.py:189-232), the
`levels.data` form.  For each entry the stage is normalised from
`.get('level', 'wake').lower()`, the timestamp is `entry['dateTime']`
(KeyError aborts the loop, earlier inserts remaining on the cursor), and one
row is inserted at that timestamp.  The `start_time` argument is received but
never used by the source, and the entry's `seconds` field is never read. -/
def insertSleepMinutes (c : SleepConn) (log_id : Nat) (minutes_data : List LevelEntry)
    (start_time : String) : SleepConn × Option PyErr :=
  match minutes_data with
  | [] => (c, none)
  | e :: rest =>
      let sleep_stage := stage_map (pyLower (e.level.getD "wake"))
      match e.dateTime with
      | none => (c, some .keyError)
      | some minute_time =>
          insertSleepMinutes (insertMinuteRow c ⟨log_id, minute_time, sleep_stage⟩)
            log_id rest start_time

/-- Classic stage-code mapping (sync_sleep.py:245-249, 266):
`{'1': 1, '2': 0, '3': 0}.get(value, 0)`. -/
def classic_stage_map (v : String) : Nat :=
  if v = "1" then 1
  else if v = "2" then 0
  else if v = "3" then 0
  else 0

/-- `SleepSync._insert_sleep_minutes_classic` (sync_sleep.py:234-278): each
entry's time-of-day is combined with the session date
(`f"{date_of_sleep} {time_str}"`), the stage code is `.get('value', '3')`
mapped through `classic_stage_map`, and the row insert skips duplicates. -/
def insertSleepMinutesClassic (c : SleepConn) (log_id : Nat)
    (minute_data : List ClassicEntry) (date_of_sleep : String) :
    SleepConn × Option PyErr :=
  match minute_data with
  | [] => (c, none)
  | e :: rest =>
      match e.dateTime with
      | none => (c, some .keyError)
      | some time_str =>
          let minute_time := date_of_sleep ++ " " ++ time_str
          let sleep_stage := classic_stage_map (e.value.getD "3")
          insertSleepMinutesClassic (insertMinuteRow c ⟨log_id, minute_time, sleep_stage⟩)
            log_id rest date_of_sleep

/-- `SleepSync._insert_sleep_session` (sync_sleep.py:92-149): parse
`startTime` and `endTime` (KeyError when absent), compute the score, build the
parameter dict (KeyError on a missing `logId`, `dateOfSleep` or `duration`),
execute the session INSERT (IntegrityError on a duplicate `log_id`), then
insert the minute children for whichever payload shape is present. -/
def insertSleepSession (c : SleepConn) (s : SleepSession) : SleepConn × Option PyErr :=
  match s.startTime with
  | none => (c, some .keyError)
  | some start_time =>
  match s.endTime with
  | none => (c, some .keyError)
  | some _end_time =>
  let _sleep_score := calculateSleepScore s
  match s.logId with
  | none => (c, some .keyError)
  | some log_id =>
  match s.dateOfSleep with
  | none => (c, some .keyError)
  | some date_of_sleep =>
  match s.duration with
  | none => (c, some .keyError)
  | some _duration =>
  let c := { c with events := c.events ++ [.execSession log_id] }
  if log_id ∈ c.current.sessions then (c, some .integrityError)
  else
    let c := { c with current := { c.current with sessions := c.current.sessions ++ [log_id] } }
    match s.levels with
    | some data => insertSleepMinutes c log_id data start_time
    | none =>
        match s.minuteData with
        | some md => insertSleepMinutesClassic c log_id md date_of_sleep
        | none => (c, none)

/-- One iteration of the session loop in `SleepSync.sync_sleep_date`
(sync_sleep.py:67-86).  Returns the connection, the increment of
`sessions_synced`, and an exception escaping the iteration, if any.
On `IntegrityError` the handler prints the session's `logId` (KeyError would
escape here, though a duplicate key implies the id is present) and then, in a
nested `try` swallowing every exception, re-attempts the minute children.
On any other exception the handler's print also reads `session['logId']` —
a KeyError there escapes the loop — and otherwise the error is recorded and
the loop continues. -/
def syncSleepStep (c : SleepConn) (s : SleepSession) : SleepConn × Nat × Option PyErr :=
  match insertSleepSession c s with
  | (c1, none) => (c1, 1, none)
  | (c1, some .integrityError) =>
      match s.logId with
      | none => (c1, 0, some .keyError)
      | some log_id =>
          let inner : SleepConn × Option PyErr :=
            match s.startTime with
            | none => (c1, some .keyError)
            | some start_time =>
                match s.levels with
                | some data => insertSleepMinutes c1 log_id data start_time
                | none =>
                    match s.minuteData with
                    | some md =>
                        match s.dateOfSleep with
                        | none => (c1, some .keyError)
                        | some dos => insertSleepMinutesClassic c1 log_id md dos
                    | none => (c1, none)
          (inner.1, 0, none)
  | (c1, some _e) =>
      match s.logId with
      | none => (c1, 0, some .keyError)
      | some _ => (c1, 0, none)

/-- The session loop of `SleepSync.sync_sleep_date` (sync_sleep.py:67-86):
fold `syncSleepStep` over the payload's sessions, accumulating
`sessions_synced`; an exception escaping one step aborts the loop. -/
def syncSleepSessions (c : SleepConn) (sessions : List SleepSession) (synced : Nat) :
    SleepConn × Nat × Option PyErr :=
  match sessions with
  | [] => (c, synced, none)
  | s :: rest =>
      match syncSleepStep c s with
      | (c1, k, none) => syncSleepSessions c1 rest (synced + k)
      | (c1, _, some e) => (c1, synced, some e)

/-- `COMMIT` on the sleep connection. -/
def commitSleep (c : SleepConn) : SleepConn :=
  { committed := c.current, current := c.current, events := c.events ++ [.commit] }

/-- `SleepSync.sync_sleep_date` (sync_sleep.py:48-90): when
`sleep_data.get('sleep')` is absent or empty (falsy) return 0 before touching
the connection; otherwise open a cursor, run the session loop, then commit and
close the cursor.  There is no try/rollback around the loop: an exception
escaping a step propagates with the transaction neither committed nor rolled
back and the cursor left open. -/
def sync_sleep_date (c : SleepConn) (p : SleepPayload) : SleepConn × Nat × Option PyErr :=
  match p.sleep with
  | none => (c, 0, none)
  | some [] => (c, 0, none)
  | some sessions =>
      let c0 := { c with events := c.events ++ [.cursorOpen] }
      match syncSleepSessions c0 sessions 0 with
      | (c1, synced, none) =>
          let c2 := commitSleep c1
          ({ c2 with events := c2.events ++ [.cursorClose] }, synced, none)
      | (c1, synced, some e) => (c1, synced, some e)

/-! ## Heart-rate sync (`src/sync/sync_heart_rate.py`) -/

/-- One record of `activities-heart-intraday.dataset`: the code reads
`record['time']` and `record['value']` (KeyError when absent). -/
structure IntradayRecord where
  time : Option String
  value : Option Nat
  deriving DecidableEq

/-- One heart-rate zone object; `z['name']` raises KeyError when absent,
`minutes` and `caloriesOut` are read with `.get`. -/
structure Zone where
  name : Option String
  minutes : Option Nat
  caloriesOut : Option Nat
  deriving DecidableEq

/-- The `value` object of the daily summary, read with `.get`. -/
structure DailyValue where
  restingHeartRate : Option Nat
  heartRateZones : Option (List Zone)
  caloriesOut : Option Nat
  deriving DecidableEq

/-- One element of the `activities-heart` list. -/
structure DailyData where
  dateTime : Option String
  value : Option DailyValue
  deriving DecidableEq

/-- The `activities-heart-intraday` object. -/
structure IntradayBlock where
  dataset : Option (List IntradayRecord)
  deriving DecidableEq

/-- The fetched heart-rate payload: presence of the two top-level keys. -/
structure HrPayload where
  activities_heart : Option (List DailyData)
  activities_heart_intraday : Option IntradayBlock
  deriving DecidableEq

/-- One row of `heart_rate_daily` (all columns except the `date` key). -/
structure DailyRow where
  resting_heart_rate : Option Nat
  calories_out : Option Nat
  fat_burn_minutes : Option Nat
  fat_burn_calories : Option Nat
  cardio_minutes : Option Nat
  cardio_calories : Option Nat
  peak_minutes : Option Nat
  peak_calories : Option Nat
  deriving DecidableEq

/-- The heart-rate tables: `heart_rate_daily` keyed by date,
`heart_rate_intraday` keyed by the datetime string, holding the heart rate. -/
structure HrDb where
  daily : List (String × DailyRow)
  intraday : List (String × Nat)
  deriving DecidableEq

/-- Cursor/connection actions recorded while syncing heart rate. -/
inductive HrEvent where
  | cursorOpen
  | cursorClose
  | execDaily (date : String)
  | execIntraday (dt : String) (hr : Nat)
  | commit
  | rollback
  deriving DecidableEq

/-- A connection to the heart-rate tables. -/
structure HrConn where
  committed : HrDb
  current : HrDb
  events : List HrEvent
  deriving DecidableEq

/-- The `heart_rate_daily` INSERT ... ON DUPLICATE KEY UPDATE
(sync_heart_rate.py:113-134): a row for the date replaces every non-key
column in place, otherwise the row is appended. -/
def upsertDaily (rows : List (String × DailyRow)) (date : String) (row : DailyRow) :
    List (String × DailyRow) :=
  if rows.any (fun r => r.1 = date) then
    rows.map (fun r => if r.1 = date then (date, row) else r)
  else rows ++ [(date, row)]

/-- The `heart_rate_intraday` INSERT ... ON DUPLICATE KEY UPDATE
(sync_heart_rate.py:170-174): a duplicate datetime key has its `heart_rate`
column updated to the incoming value; a fresh key is appended. -/
def upsertIntraday (rows : List (String × Nat)) (dt : String) (hr : Nat) :
    List (String × Nat) :=
  if rows.any (fun r => r.1 = dt) then
    rows.map (fun r => if r.1 = dt then (dt, hr) else r)
  else rows ++ [(dt, hr)]

/-- Lookup of a stored intraday heart rate by its datetime key. -/
def lookupIntraday (rows : List (String × Nat)) (dt : String) : Option Nat :=
  (rows.find? (fun r => r.1 = dt)).map Prod.snd

/-- `next((z for z in zones if z['name'] == name), {})`
(sync_heart_rate.py:109-111): scan until the first zone with the given name,
raising KeyError on a zone without a `name`, defaulting to the empty dict. -/
def findZone (zones : List Zone) (name : String) : Except PyErr (Option Zone) :=
  match zones with
  | [] => .ok none
  | z :: rest =>
      match z.name with
      | none => .error .keyError
      | some n => if n = name then .ok (some z) else findZone rest name

/-- Reading a field of a possibly-empty zone dict with `.get`. -/
def zoneMinutes (z : Option Zone) : Option Nat := z.bind Zone.minutes

/-- Reading a zone's `caloriesOut` with `.get`. -/
def zoneCalories (z : Option Zone) : Option Nat := z.bind Zone.caloriesOut

/-- `HeartRateSync._insert_daily_heart_rate` (sync_heart_rate.py:91-149):
extract the summary fields, find the three zones, and execute the daily
upsert; the Python function then returns `True`. -/
def insertDailyHeartRate (c : HrConn) (date : String) (daily_data : DailyData) :
    HrConn × Option PyErr :=
  let value := daily_data.value.getD ⟨none, none, none⟩
  let zones := value.heartRateZones.getD []
  match findZone zones "Fat Burn" with
  | .error e => (c, some e)
  | .ok fat_burn =>
  match findZone zones "Cardio" with
  | .error e => (c, some e)
  | .ok cardio =>
  match findZone zones "Peak" with
  | .error e => (c, some e)
  | .ok peak =>
  let row : DailyRow :=
    { resting_heart_rate := value.restingHeartRate
      calories_out := value.caloriesOut
      fat_burn_minutes := zoneMinutes fat_burn
      fat_burn_calories := zoneCalories fat_burn
      cardio_minutes := zoneMinutes cardio
      cardio_calories := zoneCalories cardio
      peak_minutes := zoneMinutes peak
      peak_calories := zoneCalories peak }
  ({ c with
      current := { c.current with daily := upsertDaily c.current.daily date row }
      events := c.events ++ [.execDaily date] }, none)

/-- The record loop of `HeartRateSync._insert_intraday_heart_rate`
(sync_heart_rate.py:176-196): for each record read `time` and `value`
(KeyError aborts the loop, earlier writes remaining on the cursor), build
`f"{date} {time_str}"`, and execute the intraday upsert, counting every
executed record.  The `try/except IntegrityError` around the execute never
fires because the statement resolves duplicate keys itself. -/
def insertIntradayLoop (c : HrConn) (date : String) (records : List IntradayRecord)
    (inserted : Nat) : HrConn × Nat × Option PyErr :=
  match records with
  | [] => (c, inserted, none)
  | r :: rest =>
      match r.time with
      | none => (c, inserted, some .keyError)
      | some time_str =>
      match r.value with
      | none => (c, inserted, some .keyError)
      | some heart_rate =>
          let dt := date ++ " " ++ time_str
          let c := { c with
            current := { c.current with intraday := upsertIntraday c.current.intraday dt heart_rate }
            events := c.events ++ [.execIntraday dt heart_rate] }
          insertIntradayLoop c date rest (inserted + 1)

/-- `HeartRateSync._insert_intraday_heart_rate` (sync_heart_rate.py:151-196):
an empty dataset short-circuits to 0, otherwise the record loop runs. -/
def insertIntradayHeartRate (c : HrConn) (date : String)
    (intraday_data : List IntradayRecord) : HrConn × Nat × Option PyErr :=
  match intraday_data with
  | [] => (c, 0, none)
  | _ => insertIntradayLoop c date intraday_data 0

/-- The body of the `try` block of `HeartRateSync.sync_heart_rate_date`
(sync_heart_rate.py:64-79), before the commit: sync the daily summary when
`'activities-heart' in hr_data and hr_data['activities-heart']` (key present
and non-empty), then sync the intraday dataset when its key is present —
recomputing the actual date with `hr_data['activities-heart'][0]`, an
IndexError when the key is present but the list empty. -/
def syncHrBody (c : HrConn) (date : String) (p : HrPayload) :
    HrConn × (Nat × Nat) × Option PyErr :=
  let daily_step : HrConn × Nat × Option PyErr :=
    match p.activities_heart with
    | some (daily_data :: _) =>
        let actual_date := daily_data.dateTime.getD date
        match insertDailyHeartRate c actual_date daily_data with
        | (c1, none) => (c1, 1, none)
        | (c1, some e) => (c1, 0, some e)
    | _ => (c, 0, none)
  match daily_step with
  | (c1, _, some e) => (c1, (0, 0), some e)
  | (c1, daily_synced, none) =>
      match p.activities_heart_intraday with
      | none => (c1, (daily_synced, 0), none)
      | some blk =>
          let intraday_data := blk.dataset.getD []
          match p.activities_heart with
          | some [] => (c1, (daily_synced, 0), some .indexError)
          | some (daily_data :: _) =>
              let actual_date := daily_data.dateTime.getD date
              match insertIntradayHeartRate c1 actual_date intraday_data with
              | (c2, n, none) => (c2, (daily_synced, n), none)
              | (c2, _, some e) => (c2, (daily_synced, 0), some e)
          | none =>
              match insertIntradayHeartRate c1 date intraday_data with
              | (c2, n, none) => (c2, (daily_synced, n), none)
              | (c2, _, some e) => (c2, (daily_synced, 0), some e)

/-- `COMMIT` on the heart-rate connection. -/
def commitHr (c : HrConn) : HrConn :=
  { committed := c.current, current := c.current, events := c.events ++ [.commit] }

/-- `ROLLBACK` on the heart-rate connection. -/
def rollbackHr (c : HrConn) : HrConn :=
  { committed := c.committed, current := c.committed, events := c.events ++ [.rollback] }

/-- `HeartRateSync.sync_heart_rate_date` (sync_heart_rate.py:48-89): open a
cursor, run the body inside `try`; on success commit, on any exception roll
back and re-raise, and close the cursor in `finally` on both paths. -/
def sync_heart_rate_date (c : HrConn) (date : String) (p : HrPayload) :
    HrConn × (Nat × Nat) × Option PyErr :=
  let c0 := { c with events := c.events ++ [.cursorOpen] }
  match syncHrBody c0 date p with
  | (c1, counts, none) =>
      let c2 := commitHr c1
      ({ c2 with events := c2.events ++ [.cursorClose] }, counts, none)
  | (c1, _, some e) =>
      let c2 := rollbackHr c1
      ({ c2 with events := c2.events ++ [.cursorClose] }, (0, 0), some e)

/-! ## Month range sync (`src/sync/sync_heart_rate_month.py`) -/

/-- A calendar date as handled by `datetime`. -/
structure CalDate where
  y : Nat
  m : Nat
  d : Nat
  deriving DecidableEq

/-- The Gregorian leap-year rule implemented by `datetime`. -/
def is_leap (y : Nat) : Bool :=
  (y % 4 = 0 && y % 100 != 0) || y % 400 = 0

/-- Days in a month, as `datetime` arithmetic observes them. -/
def daysInMonth (y m : Nat) : Nat :=
  if m = 2 then (if is_leap y then 29 else 28)
  else if m = 4 ∨ m = 6 ∨ m = 9 ∨ m = 11 then 30
  else 31

/-- `current_date + timedelta(days=1)`. -/
def nextDay (dt : CalDate) : CalDate :=
  if dt.d < daysInMonth dt.y dt.m then ⟨dt.y, dt.m, dt.d + 1⟩
  else if dt.m < 12 then ⟨dt.y, dt.m + 1, 1⟩
  else ⟨dt.y + 1, 1, 1⟩

/-- `some_date - timedelta(days=1)`. -/
def prevDay (dt : CalDate) : CalDate :=
  if 1 < dt.d then ⟨dt.y, dt.m, dt.d - 1⟩
  else if 1 < dt.m then ⟨dt.y, dt.m - 1, daysInMonth dt.y (dt.m - 1)⟩
  else ⟨dt.y - 1, 12, 31⟩

/-- `datetime` comparison: lexicographic on (year, month, day). -/
def dateLe (a b : CalDate) : Bool :=
  a.y < b.y || (a.y = b.y && (a.m < b.m || (a.m = b.m && a.d ≤ b.d)))

/-- The `end_date` computation of `generate_date_range`
(sync_heart_rate_month.py:29-33): the first day of the next month minus one
day. -/
def end_of_month (year month : Nat) : CalDate :=
  if month = 12 then prevDay ⟨year + 1, 1, 1⟩
  else prevDay ⟨year, month + 1, 1⟩

/-- The `while current_date <= end_date` loop of `generate_date_range`
(sync_heart_rate_month.py:35-38), with an explicit iteration bound.  The bound
400 exceeds every month's length, and the characterisation theorem below shows
it is never reached. -/
def genLoop (fuel : Nat) (current end_date : CalDate) : List CalDate :=
  match fuel with
  | 0 => []
  | fuel + 1 =>
      if dateLe current end_date then current :: genLoop fuel (nextDay current) end_date
      else []

/-- `generate_date_range` (sync_heart_rate_month.py:17-38): every date from
the first to the last day of the month, ascending. -/
def generate_date_range (year month : Nat) : List CalDate :=
  genLoop 400 ⟨year, month, 1⟩ (end_of_month year month)

/-- The per-date loop of `main` (sync_heart_rate_month.py:100-119): call the
single-date sync (`sync.sync_heart_rate_date`, abstracted to the collaborator
`sync`) once for every generated date, catch any per-date exception and
continue, accumulate the daily and intraday totals, and report them together
with the number of dates.  Also returns the list of dates attempted, in
order. -/
def sync_month (sync : CalDate → Except PyErr (Nat × Nat)) (year month : Nat) :
    (Nat × Nat × Nat) × List CalDate :=
  let dates := generate_date_range year month
  let totals := dates.foldl
    (fun acc date =>
      match sync date with
      | .ok (daily, intraday) => (acc.1 + daily, acc.2 + intraday)
      | .error _ => acc)
    (0, 0)
  ((totals.1, totals.2, dates.length), dates)

/-! ## Claim theorems -/

/-- C7: if the single callback request served during authorization lacks a
`code` query parameter, no code is captured, the handler answers 400, the
operation fails with the spec's `AuthorizationError`, and the code-for-token
exchange is never invoked (no `ExchangeCall` is produced); when a code is
present the handler answers 200 and the exchange is invoked with exactly the
captured code.  The listener serving at most one request is structural:
`run_callback_server` consumes a single request. -/
theorem C7_callback_without_code (q : List (String × String)) (v : String) :
    (lookupParam q "code" = none →
      authorize v q = .error .authorizationError ∧ (handleCallback q).1 = 400) ∧
    (∀ c : String, lookupParam q "code" = some c → c ≠ "" →
      authorize v q = .ok ⟨c, v⟩ ∧ (handleCallback q).1 = 200) := by
  constructor
  · intro h
    constructor
    · simp [authorize, run_callback_server, handleCallback, h]
    · simp [handleCallback, h]
  · intro c hc hne
    constructor
    · simp [authorize, run_callback_server, handleCallback, hc, hne]
    · simp [handleCallback, hc]

/-- Witness for C7 at a concrete request carrying only a `state` parameter. -/
theorem C7_callback_without_code_witness :
    authorize "verifier0" [("state", "abc")] = .error .authorizationError ∧
    (handleCallback [("state", "abc")]).1 = 400 :=
  (C7_callback_without_code [("state", "abc")] "verifier0").1 rfl

/-- C8: when no refresh token is stored, `refresh_access_token` fails with the
spec's `NoRefreshTokenError`, performs no network request, and leaves the
stored token fields unchanged. -/
theorem C8_refresh_without_token (st : AuthState) (net : TokenRequest → TokenResponse)
    (h : st.refresh_token = none) :
    refresh_access_token st net = (st, .error .noRefreshTokenError, []) := by
  simp [refresh_access_token, h]

/-- Witness for C8 at the freshly constructed (all-empty) token state. -/
theorem C8_refresh_without_token_witness :
    refresh_access_token ⟨none, none, none, none⟩ (fun _ => ⟨none, none, none, none⟩) =
      (⟨none, none, none, none⟩, .error .noRefreshTokenError, []) :=
  C8_refresh_without_token ⟨none, none, none, none⟩ (fun _ => ⟨none, none, none, none⟩) rfl

/-- C9: persisting the four token fields and restoring from the persisted
object restores exactly the same four fields, and the persisted layout is a
flat object whose keys are exactly `access_token`, `refresh_token`,
`token_type`, `expires_in`. -/
theorem C9_token_roundtrip (st : AuthState) :
    load_tokens (save_tokens st) = st ∧
    (save_tokens st).map Prod.fst =
      ["access_token", "refresh_token", "token_type", "expires_in"] := by
  constructor
  · obtain ⟨a, r, t, e⟩ := st
    cases a <;> cases r <;> cases t <;> cases e <;> rfl
  · rfl

/-- C10: when the fetched sleep payload has no `sleep` key or an empty session
list, the sleep sync returns 0 and performs no database action at all: the
connection (durable state, transaction view, and event trace — so no cursor,
no insert, no commit) is returned unchanged. -/
theorem C10_empty_sleep_payload_no_db_ops (c : SleepConn) (p : SleepPayload)
    (h : p.sleep = none ∨ p.sleep = some []) :
    sync_sleep_date c p = (c, 0, none) := by
  rcases h with h | h <;> simp [sync_sleep_date, h]

/-- Witness for C10 at an empty connection and an empty session list. -/
theorem C10_empty_sleep_payload_no_db_ops_witness :
    sync_sleep_date ⟨⟨[], []⟩, ⟨[], []⟩, []⟩ ⟨some []⟩ = (⟨⟨[], []⟩, ⟨[], []⟩, []⟩, 0, none) :=
  C10_empty_sleep_payload_no_db_ops ⟨⟨[], []⟩, ⟨[], []⟩, []⟩ ⟨some []⟩ (Or.inr rfl)

/-- The minute-row insert records exactly one execute event. -/
theorem insertMinuteRow_events (c : SleepConn) (r : MinuteRecord) :
    (insertMinuteRow c r).events = c.events ++ [.execMinute r] := by
  unfold insertMinuteRow
  by_cases h : (r.log_id, r.minute_time) ∈ minuteKeys c.current
  · rw [if_pos h]
  · rw [if_neg h]

/-- The minute-row insert does not touch the durable state. -/
theorem insertMinuteRow_committed (c : SleepConn) (r : MinuteRecord) :
    (insertMinuteRow c r).committed = c.committed := by
  unfold insertMinuteRow
  by_cases h : (r.log_id, r.minute_time) ∈ minuteKeys c.current
  · rw [if_pos h]
  · rw [if_neg h]

/-- After the conflict-tolerant minute-row insert, the row's key is present in
the transaction view (inserted, or already there and skipped). -/
theorem insertMinuteRow_mem (c : SleepConn) (r : MinuteRecord) :
    (r.log_id, r.minute_time) ∈ minuteKeys (insertMinuteRow c r).current := by
  unfold insertMinuteRow
  by_cases h : (r.log_id, r.minute_time) ∈ minuteKeys c.current
  · rw [if_pos h]; exact h
  · rw [if_neg h]
    simp only [minuteKeys, List.map_append, List.mem_append, List.map_cons, List.map_nil,
      List.mem_singleton]
    exact Or.inr trivial

/-- The minute-row insert never removes an existing key. -/
theorem insertMinuteRow_preserves (c : SleepConn) (r : MinuteRecord)
    (k : Nat × String) (hk : k ∈ minuteKeys c.current) :
    k ∈ minuteKeys (insertMinuteRow c r).current := by
  unfold insertMinuteRow
  by_cases h : (r.log_id, r.minute_time) ∈ minuteKeys c.current
  · rw [if_pos h]; exact hk
  · rw [if_neg h]
    simp only [minuteKeys, List.map_append, List.mem_append] at hk ⊢
    exact Or.inl hk

/-- Loop invariant of `_insert_sleep_minutes`: when every entry carries a
timestamp, the loop finishes without an exception, records exactly one
attempted insert per entry (at the entry's own timestamp, with the normalised
stage), leaves the durable state untouched, ends with every entry's key
present in the transaction view, and never removes a pre-existing key. -/
theorem insertSleepMinutes_spec (log_id : Nat) (start_time : String) :
    ∀ (minutes_data : List LevelEntry) (c : SleepConn),
      (∀ e ∈ minutes_data, e.dateTime.isSome) →
      (insertSleepMinutes c log_id minutes_data start_time).2 = none ∧
      (insertSleepMinutes c log_id minutes_data start_time).1.events =
        c.events ++ minutes_data.map (fun e =>
          .execMinute ⟨log_id, e.dateTime.getD "", stage_map (pyLower (e.level.getD "wake"))⟩) ∧
      (insertSleepMinutes c log_id minutes_data start_time).1.committed = c.committed ∧
      (∀ e ∈ minutes_data,
        (log_id, e.dateTime.getD "") ∈
          minuteKeys (insertSleepMinutes c log_id minutes_data start_time).1.current) ∧
      (∀ k ∈ minuteKeys c.current,
        k ∈ minuteKeys (insertSleepMinutes c log_id minutes_data start_time).1.current) := by
  intro minutes_data
  induction minutes_data with
  | nil => intro c _; simp [insertSleepMinutes]
  | cons e rest ih =>
      intro c h
      obtain ⟨dt, hdt⟩ := Option.isSome_iff_exists.mp (h e (List.mem_cons_self e rest))
      have hrest : ∀ x ∈ rest, x.dateTime.isSome := fun x hx => h x (List.mem_cons_of_mem e hx)
      have hstep := ih (insertMinuteRow c ⟨log_id, dt, stage_map (pyLower (e.level.getD "wake"))⟩) hrest
      simp only [insertSleepMinutes, hdt]
      refine ⟨hstep.1, ?_, ?_, ?_, ?_⟩
      · rw [hstep.2.1, insertMinuteRow_events, List.map_cons, List.append_assoc,
          List.singleton_append, hdt]
        rfl
      · rw [hstep.2.2.1, insertMinuteRow_committed]
      · intro x hx
        rcases List.mem_cons.mp hx with h1 | h1
        · rw [h1, hdt]
          exact hstep.2.2.2.2 (log_id, dt)
            (insertMinuteRow_mem c ⟨log_id, dt, stage_map (pyLower (e.level.getD "wake"))⟩)
        · exact hstep.2.2.2.1 x h1
      · intro k hk
        exact hstep.2.2.2.2 k
          (insertMinuteRow_preserves c ⟨log_id, dt, stage_map (pyLower (e.level.getD "wake"))⟩ k hk)

/-- The `seconds` field of a `levels.data` entry is never read by the minute
insertion: rewriting it arbitrarily leaves the whole run unchanged. -/
theorem insertSleepMinutes_seconds_ignored (log_id : Nat) (start_time : String) :
    ∀ (minutes_data : List LevelEntry) (c : SleepConn) (f : LevelEntry → Nat),
      insertSleepMinutes c log_id (minutes_data.map fun e => { e with seconds := f e })
          start_time =
        insertSleepMinutes c log_id minutes_data start_time := by
  intro minutes_data
  induction minutes_data with
  | nil => intro c f; rfl
  | cons e rest ih =>
      intro c f
      simp only [List.map_cons, insertSleepMinutes]
      cases e.dateTime with
      | none => rfl
      | some dt => exact ih _ f

/-- C1 counterexample: the interval-form entry
`{stage: "deep", start: "00:00:00", durationSeconds: 150}` yields exactly ONE
minute record, at the interval's start, not the floor(150/60) = 2 records the
claim demands: `_insert_sleep_minutes` performs no expansion of the duration. -/
theorem C1_minute_expansion_counterexample :
    (insertSleepMinutes ⟨⟨[], []⟩, ⟨[], []⟩, []⟩ 1
        [⟨some "deep", some "2025-01-01 00:00:00", 150⟩] "2025-01-01 00:00:00").1.current.minutes =
      [⟨1, "2025-01-01 00:00:00", 2⟩] ∧
    (insertSleepMinutes ⟨⟨[], []⟩, ⟨[], []⟩, []⟩ 1
        [⟨some "deep", some "2025-01-01 00:00:00", 150⟩]
        "2025-01-01 00:00:00").1.current.minutes.length ≠ 150 / 60 := by
  constructor
  · decide
  · decide

/-- C1 (amended): for every `levels.data` list whose entries carry timestamps,
the minute insertion attempts exactly one minute record per entry — at the
entry's own timestamp, carrying the entry's normalised stage — and the entry's
`durationSeconds` is ignored entirely (no expansion, no remainder handling):
rewriting every duration arbitrarily changes nothing. -/
theorem C1_minute_expansion_amended (c : SleepConn) (log_id : Nat)
    (minutes_data : List LevelEntry) (start_time : String)
    (h : ∀ e ∈ minutes_data, e.dateTime.isSome) :
    (insertSleepMinutes c log_id minutes_data start_time).2 = none ∧
    (insertSleepMinutes c log_id minutes_data start_time).1.events =
      c.events ++ minutes_data.map (fun e =>
        .execMinute ⟨log_id, e.dateTime.getD "", stage_map (pyLower (e.level.getD "wake"))⟩) ∧
    ∀ f : LevelEntry → Nat,
      insertSleepMinutes c log_id (minutes_data.map fun e => { e with seconds := f e })
          start_time =
        insertSleepMinutes c log_id minutes_data start_time := by
  obtain ⟨h1, h2, -, -, -⟩ := insertSleepMinutes_spec log_id start_time minutes_data c h
  exact ⟨h1, h2, fun f => insertSleepMinutes_seconds_ignored log_id start_time minutes_data c f⟩

/-- Witness for C1 (amended) at the 150-second deep interval. -/
theorem C1_minute_expansion_amended_witness :
    (insertSleepMinutes ⟨⟨[], []⟩, ⟨[], []⟩, []⟩ 1
        [⟨some "deep", some "2025-01-01 00:00:00", 150⟩] "2025-01-01 00:00:00").2 = none ∧
    (insertSleepMinutes ⟨⟨[], []⟩, ⟨[], []⟩, []⟩ 1
        [⟨some "deep", some "2025-01-01 00:00:00", 150⟩] "2025-01-01 00:00:00").1.events =
      [] ++ ([⟨some "deep", some "2025-01-01 00:00:00", 150⟩] : List LevelEntry).map
        (fun e => SleepEvent.execMinute
          ⟨1, e.dateTime.getD "", stage_map (pyLower (e.level.getD "wake"))⟩) :=
  ⟨(C1_minute_expansion_amended ⟨⟨[], []⟩, ⟨[], []⟩, []⟩ 1
      [⟨some "deep", some "2025-01-01 00:00:00", 150⟩] "2025-01-01 00:00:00"
      (by decide)).1,
   (C1_minute_expansion_amended ⟨⟨[], []⟩, ⟨[], []⟩, []⟩ 1
      [⟨some "deep", some "2025-01-01 00:00:00", 150⟩] "2025-01-01 00:00:00"
      (by decide)).2.1⟩

/-- A key is among the stored intraday keys exactly when the `any`-scan of the
upsert's duplicate check succeeds. -/
theorem mem_map_fst_iff_any (rows : List (String × Nat)) (dt : String) :
    dt ∈ rows.map Prod.fst ↔ rows.any (fun r => r.1 = dt) = true := by
  simp only [List.any_eq_true, List.mem_map, decide_eq_true_eq]

/-- The intraday upsert on an already-present key changes no key: the row set
(and hence the row count) is unchanged. -/
theorem upsertIntraday_keys (rows : List (String × Nat)) (dt : String) (hr : Nat)
    (h : dt ∈ rows.map Prod.fst) :
    (upsertIntraday rows dt hr).map Prod.fst = rows.map Prod.fst := by
  unfold upsertIntraday
  rw [if_pos ((mem_map_fst_iff_any rows dt).mp h), List.map_map]
  refine List.map_congr_left fun r _ => ?_
  by_cases hre : r.1 = dt <;> simp [Function.comp, hre]

/-- The intraday upsert on an already-present key stores the incoming value:
the previously stored heart rate is overwritten (last write wins). -/
theorem upsertIntraday_lookup (dt : String) (hr : Nat) :
    ∀ rows : List (String × Nat), dt ∈ rows.map Prod.fst →
      lookupIntraday (upsertIntraday rows dt hr) dt = some hr := by
  intro rows
  induction rows with
  | nil => intro h; simp at h
  | cons p rest ih =>
      intro h
      have ha := (mem_map_fst_iff_any _ dt).mp h
      unfold upsertIntraday
      rw [if_pos ha]
      by_cases hp : p.1 = dt
      · simp [lookupIntraday, hp]
      · have h' : dt ∈ rest.map Prod.fst := by
          rcases List.mem_map.mp h with ⟨x, hx, rfl⟩
          rcases List.mem_cons.mp hx with rfl | hx2
          · exact absurd rfl hp
          · exact List.mem_map.mpr ⟨x, hx2, rfl⟩
        have hres := ih h'
        rw [upsertIntraday, if_pos ((mem_map_fst_iff_any rest dt).mp h')] at hres
        simpa [lookupIntraday, hp] using hres

/-- Re-applying the same intraday upsert is a no-op (the re-run of an
identical write leaves the stored rows unchanged). -/
theorem upsertIntraday_idem (rows : List (String × Nat)) (dt : String) (hr : Nat)
    (h : dt ∈ rows.map Prod.fst) :
    upsertIntraday (upsertIntraday rows dt hr) dt hr = upsertIntraday rows dt hr := by
  have ha := (mem_map_fst_iff_any rows dt).mp h
  have hu : upsertIntraday rows dt hr =
      List.map (fun r => if r.1 = dt then (dt, hr) else r) rows := by
    unfold upsertIntraday; rw [if_pos ha]
  have h2 : dt ∈ (upsertIntraday rows dt hr).map Prod.fst := by
    rw [upsertIntraday_keys rows dt hr h]; exact h
  have ha2 : ((List.map (fun r => if r.1 = dt then (dt, hr) else r) rows).any
      (fun r => r.1 = dt)) = true := by
    rw [← hu]; exact (mem_map_fst_iff_any _ dt).mp h2
  rw [hu]
  unfold upsertIntraday
  rw [if_pos ha2, List.map_map]
  refine List.map_congr_left fun r _ => ?_
  by_cases hre : r.1 = dt <;> simp [Function.comp, hre]

/-- The intraday record loop never touches the durable state. -/
theorem insertIntradayLoop_committed (date : String) :
    ∀ (records : List IntradayRecord) (c : HrConn) (inserted : Nat),
      (insertIntradayLoop c date records inserted).1.committed = c.committed := by
  intro records
  induction records with
  | nil => intro c inserted; rfl
  | cons r rest ih =>
      intro c inserted
      unfold insertIntradayLoop
      cases r.time with
      | none => rfl
      | some t =>
          cases r.value with
          | none => rfl
          | some v => exact ih _ _

/-- Loop invariant of `_insert_intraday_heart_rate`: when every record carries
`time` and `value` and every record's timestamp is already stored, the loop
finishes without an exception, the stored key set (hence the row count) is
unchanged, and every executed record is counted. -/
theorem insertIntradayLoop_spec (date : String) :
    ∀ (records : List IntradayRecord) (c : HrConn) (inserted : Nat),
      (∀ r ∈ records, ∃ t v, r.time = some t ∧ r.value = some v ∧
        (date ++ " " ++ t) ∈ c.current.intraday.map Prod.fst) →
      (insertIntradayLoop c date records inserted).2.2 = none ∧
      (insertIntradayLoop c date records inserted).1.current.intraday.map Prod.fst =
        c.current.intraday.map Prod.fst ∧
      (insertIntradayLoop c date records inserted).2.1 = inserted + records.length := by
  intro records
  induction records with
  | nil => intro c inserted _; simp [insertIntradayLoop]
  | cons r rest ih =>
      intro c inserted h
      obtain ⟨t, v, ht, hv, hmem⟩ := h r (List.mem_cons_self r rest)
      unfold insertIntradayLoop
      rw [ht, hv]
      have hkeys : (upsertIntraday c.current.intraday (date ++ " " ++ t) v).map Prod.fst =
          c.current.intraday.map Prod.fst :=
        upsertIntraday_keys _ _ _ hmem
      have hrest : ∀ x ∈ rest, ∃ t' v', x.time = some t' ∧ x.value = some v' ∧
          (date ++ " " ++ t') ∈
            (({ c with
              current := { c.current with
                intraday := upsertIntraday c.current.intraday (date ++ " " ++ t) v }
              events := c.events ++ [.execIntraday (date ++ " " ++ t) v] } : HrConn)).current.intraday.map
              Prod.fst := by
        intro x hx
        obtain ⟨t', v', ht', hv', hmem'⟩ := h x (List.mem_cons_of_mem r hx)
        exact ⟨t', v', ht', hv', hkeys ▸ hmem'⟩
      obtain ⟨e1, e2, e3⟩ := ih _ (inserted + 1) hrest
      refine ⟨e1, ?_, ?_⟩
      · rw [e2]; exact hkeys
      · rw [e3, List.length_cons]; omega

/-- C2 counterexample: an intraday entry whose minute timestamp already holds
a stored row of value 60 is NOT silently ignored — running the date sync with
an incoming value of 70 overwrites the committed row to 70 (the
`ON DUPLICATE KEY UPDATE` clause makes the last write win, contradicting
first-write-wins). -/
theorem C2_intraday_conflict_counterexample :
    (sync_heart_rate_date
        ⟨⟨[], [("2025-01-01 00:00", 60)]⟩, ⟨[], [("2025-01-01 00:00", 60)]⟩, []⟩
        "2025-01-01" ⟨none, some ⟨some [⟨some "00:00", some 70⟩]⟩⟩).1.committed.intraday =
      [("2025-01-01 00:00", 70)] ∧
    lookupIntraday [("2025-01-01 00:00", 60)] "2025-01-01 00:00" = some 60 := by
  constructor
  · decide
  · decide

/-- C2 (amended): an intraday write whose minute timestamp already has a
stored row updates that row in place to the incoming value (last write wins,
the previous value IS overwritten); the row count for already-present
timestamps never increases (the key set is unchanged, both for one upsert and
across a whole record loop, which also raises no exception and counts every
record), and re-issuing the identical write is a no-op, so re-running the same
date's sync with identical data leaves the stored rows unchanged. -/
theorem C2_intraday_conflict_amended (rows : List (String × Nat)) (dt : String) (hr : Nat)
    (c : HrConn) (date : String) (records : List IntradayRecord)
    (h1 : dt ∈ rows.map Prod.fst)
    (h2 : ∀ r ∈ records, ∃ t v, r.time = some t ∧ r.value = some v ∧
      (date ++ " " ++ t) ∈ c.current.intraday.map Prod.fst) :
    lookupIntraday (upsertIntraday rows dt hr) dt = some hr ∧
    (upsertIntraday rows dt hr).map Prod.fst = rows.map Prod.fst ∧
    upsertIntraday (upsertIntraday rows dt hr) dt hr = upsertIntraday rows dt hr ∧
    (insertIntradayLoop c date records 0).1.current.intraday.map Prod.fst =
      c.current.intraday.map Prod.fst ∧
    (insertIntradayLoop c date records 0).2.2 = none ∧
    (insertIntradayLoop c date records 0).2.1 = records.length := by
  obtain ⟨e1, e2, e3⟩ := insertIntradayLoop_spec date records c 0 h2
  exact ⟨upsertIntraday_lookup dt hr rows h1, upsertIntraday_keys rows dt hr h1,
    upsertIntraday_idem rows dt hr h1, e2, e1, by rw [e3]; omega⟩

/-- Witness for C2 (amended) at a one-row table and a one-record payload. -/
theorem C2_intraday_conflict_amended_witness :
    lookupIntraday (upsertIntraday [("2025-01-01 00:00", 60)] "2025-01-01 00:00" 70)
        "2025-01-01 00:00" = some 70 ∧
    (insertIntradayLoop
        ⟨⟨[], [("2025-01-01 00:00", 60)]⟩, ⟨[], [("2025-01-01 00:00", 60)]⟩, []⟩
        "2025-01-01" [⟨some "00:00", some 70⟩] 0).2.2 = none :=
  ⟨(C2_intraday_conflict_amended [("2025-01-01 00:00", 60)] "2025-01-01 00:00" 70
      ⟨⟨[], [("2025-01-01 00:00", 60)]⟩, ⟨[], [("2025-01-01 00:00", 60)]⟩, []⟩
      "2025-01-01" [⟨some "00:00", some 70⟩] (by decide)
      (by
        intro r hr
        rw [List.mem_singleton] at hr
        subst hr
        exact ⟨"00:00", 70, rfl, rfl, by decide⟩)).1,
   (C2_intraday_conflict_amended [("2025-01-01 00:00", 60)] "2025-01-01 00:00" 70
      ⟨⟨[], [("2025-01-01 00:00", 60)]⟩, ⟨[], [("2025-01-01 00:00", 60)]⟩, []⟩
      "2025-01-01" [⟨some "00:00", some 70⟩] (by decide)
      (by
        intro r hr
        rw [List.mem_singleton] at hr
        subst hr
        exact ⟨"00:00", 70, rfl, rfl, by decide⟩)).2.2.2.2.1⟩

/-- The daily-summary insert never touches the durable state. -/
theorem insertDailyHeartRate_committed (c : HrConn) (date : String) (dd : DailyData) :
    (insertDailyHeartRate c date dd).1.committed = c.committed := by
  simp only [insertDailyHeartRate]
  split
  · rfl
  · split
    · rfl
    · split
      · rfl
      · rfl

/-- The intraday insert entry point never touches the durable state. -/
theorem insertIntradayHeartRate_committed (c : HrConn) (date : String)
    (records : List IntradayRecord) :
    (insertIntradayHeartRate c date records).1.committed = c.committed := by
  cases records with
  | nil => rfl
  | cons r rest => exact insertIntradayLoop_committed date (r :: rest) c 0

/-- The whole `try`-block body of the heart-rate date sync never touches the
durable state: only `commit` does. -/
theorem syncHrBody_committed (c : HrConn) (date : String) (p : HrPayload) :
    (syncHrBody c date p).1.committed = c.committed := by
  unfold syncHrBody
  rcases hah : p.activities_heart with _ | ⟨_ | ⟨dd, tl⟩⟩
  · rcases hint : p.activities_heart_intraday with _ | blk
    · rfl
    · rcases hres : insertIntradayHeartRate c date (blk.dataset.getD []) with ⟨c2, n, err⟩
      have hcom := insertIntradayHeartRate_committed c date (blk.dataset.getD [])
      rw [hres] at hcom
      cases err <;> (simp [hres]; exact hcom)
  · rcases hint : p.activities_heart_intraday with _ | blk
    · rfl
    · rfl
  · rcases hd : insertDailyHeartRate c (dd.dateTime.getD date) dd with ⟨c1, derr⟩
    have hdcom := insertDailyHeartRate_committed c (dd.dateTime.getD date) dd
    rw [hd] at hdcom
    cases derr with
    | some e => simp [hd]; exact hdcom
    | none =>
        rcases hint : p.activities_heart_intraday with _ | blk
        · simp [hd]; exact hdcom
        · rcases hres : insertIntradayHeartRate c1 (dd.dateTime.getD date) (blk.dataset.getD [])
            with ⟨c2, n, err⟩
          have hcom := insertIntradayHeartRate_committed c1 (dd.dateTime.getD date)
            (blk.dataset.getD [])
          rw [hres] at hcom
          cases err <;> (simp [hd, hres]; exact hcom.trans hdcom)

/-- C3 counterexample: in the sleep unit, a payload whose second session lacks
a `logId` (after a first session was written) makes a `KeyError` escape the
per-session handler: the sync raises, yet no rollback is issued and commit is
never reached — the exit leaves the transaction view different from the
durable state, so the transaction is not released on this exit path. -/
theorem C3_transactions_counterexample :
    (sync_sleep_date ⟨⟨[], []⟩, ⟨[], []⟩, []⟩
        ⟨some [⟨some 10, some "2025-01-01", some "2025-01-01 00:00:00",
            some "2025-01-01 08:00:00", some 1000, none, none, none, none, none, none,
            none, none, none, none, none, none, none⟩,
          ⟨none, some "2025-01-01", some "2025-01-01 22:00:00",
            some "2025-01-02 06:00:00", some 1000, none, none, none, none, none, none,
            none, none, none, none, none, none, none⟩]⟩).2.2 = some PyErr.keyError ∧
    (sync_sleep_date ⟨⟨[], []⟩, ⟨[], []⟩, []⟩
        ⟨some [⟨some 10, some "2025-01-01", some "2025-01-01 00:00:00",
            some "2025-01-01 08:00:00", some 1000, none, none, none, none, none, none,
            none, none, none, none, none, none, none⟩,
          ⟨none, some "2025-01-01", some "2025-01-01 22:00:00",
            some "2025-01-02 06:00:00", some 1000, none, none, none, none, none, none,
            none, none, none, none, none, none, none⟩]⟩).1.current ≠
      (sync_sleep_date ⟨⟨[], []⟩, ⟨[], []⟩, []⟩
        ⟨some [⟨some 10, some "2025-01-01", some "2025-01-01 00:00:00",
            some "2025-01-01 08:00:00", some 1000, none, none, none, none, none, none,
            none, none, none, none, none, none, none⟩,
          ⟨none, some "2025-01-01", some "2025-01-01 22:00:00",
            some "2025-01-02 06:00:00", some 1000, none, none, none, none, none, none,
            none, none, none, none, none, none, none⟩]⟩).1.committed := by
  constructor
  · decide
  · decide

/-- C3 (amended): the heart-rate unit behaves as the claim states — on every
exit path the transaction is released (the transaction view equals the durable
state: commit on success, rollback on error), an exception leaves the durable
state unchanged and is re-raised to the caller, and the cursor's close is the
final connection action.  The sleep unit only commits on its normal path
(releasing the transaction then); it has no rollback, per-session exceptions
are swallowed rather than re-raised, and an exception escaping the per-session
handler leaves the transaction unreleased (see the counterexample). -/
theorem C3_transactions_amended :
    (∀ (c : HrConn) (date : String) (p : HrPayload),
      (sync_heart_rate_date c date p).1.current = (sync_heart_rate_date c date p).1.committed ∧
      ((sync_heart_rate_date c date p).2.2 ≠ none →
        (sync_heart_rate_date c date p).1.committed = c.committed) ∧
      (sync_heart_rate_date c date p).1.events.getLast? = some .cursorClose) ∧
    (∀ (c : SleepConn) (p : SleepPayload), c.current = c.committed →
      (sync_sleep_date c p).2.2 = none →
      (sync_sleep_date c p).1.current = (sync_sleep_date c p).1.committed) := by
  constructor
  · intro c date p
    simp only [sync_heart_rate_date]
    rcases hb : syncHrBody { c with events := c.events ++ [.cursorOpen] } date p
      with ⟨c1, counts, err⟩
    have hcom := syncHrBody_committed { c with events := c.events ++ [.cursorOpen] } date p
    rw [hb] at hcom
    cases err with
    | none =>
        refine ⟨rfl, fun habs => absurd rfl habs, ?_⟩
        show ((commitHr c1).events ++ [HrEvent.cursorClose]).getLast? = some .cursorClose
        exact List.getLast?_concat _
    | some e =>
        refine ⟨rfl, fun _ => hcom, ?_⟩
        show ((rollbackHr c1).events ++ [HrEvent.cursorClose]).getLast? = some .cursorClose
        exact List.getLast?_concat _
  · intro c p h hok
    rcases hps : p.sleep with _ | (_ | ⟨s, rest⟩)
    · simp [sync_sleep_date, hps]; exact h
    · simp [sync_sleep_date, hps]; exact h
    · simp only [sync_sleep_date, hps] at hok ⊢
      rcases hs : syncSleepSessions { c with events := c.events ++ [.cursorOpen] }
        (s :: rest) 0 with ⟨c1, k, serr⟩
      rw [hs] at hok
      cases serr with
      | none => rfl
      | some e => exact Option.noConfusion hok

/-- Witness for C3 (amended): the heart-rate facts at an empty payload and the
sleep commit-on-success fact at an absent payload. -/
theorem C3_transactions_amended_witness :
    (sync_heart_rate_date ⟨⟨[], []⟩, ⟨[], []⟩, []⟩ "2025-01-01" ⟨none, none⟩).1.current =
      (sync_heart_rate_date ⟨⟨[], []⟩, ⟨[], []⟩, []⟩ "2025-01-01" ⟨none, none⟩).1.committed ∧
    (sync_sleep_date ⟨⟨[], []⟩, ⟨[], []⟩, []⟩ ⟨none⟩).1.current =
      (sync_sleep_date ⟨⟨[], []⟩, ⟨[], []⟩, []⟩ ⟨none⟩).1.committed :=
  ⟨(C3_transactions_amended.1 ⟨⟨[], []⟩, ⟨[], []⟩, []⟩ "2025-01-01" ⟨none, none⟩).1,
   C3_transactions_amended.2 ⟨⟨[], []⟩, ⟨[], []⟩, []⟩ ⟨none⟩ rfl (by decide)⟩

/-- One session-loop iteration never raises when the session carries a
`logId`: a duplicate-key conflict is absorbed by the backfill branch, and any
other exception is printed (the print reads the present `logId`) and
swallowed. -/
theorem syncSleepStep_no_raise (c : SleepConn) (s : SleepSession)
    (h : s.logId.isSome) : (syncSleepStep c s).2.2 = none := by
  obtain ⟨l, hl⟩ := Option.isSome_iff_exists.mp h
  unfold syncSleepStep
  rcases hins : insertSleepSession c s with ⟨c1, err⟩
  cases err with
  | none => rfl
  | some e => cases e <;> rw [hl]

/-- The session loop of `sync_sleep_date` never raises when every session in
the payload carries a `logId`: every session is consumed and the loop returns
normally. -/
theorem syncSleepSessions_no_raise :
    ∀ (sessions : List SleepSession) (c : SleepConn) (n : Nat),
      (∀ s ∈ sessions, s.logId.isSome) →
      (syncSleepSessions c sessions n).2.2 = none := by
  intro sessions
  induction sessions with
  | nil => intro c n _; rfl
  | cons s rest ih =>
      intro c n h
      unfold syncSleepSessions
      rcases hstep : syncSleepStep c s with ⟨c1, k, err⟩
      have hnone := syncSleepStep_no_raise c s (h s (List.mem_cons_self s rest))
      rw [hstep] at hnone
      simp only at hnone
      subst hnone
      exact ih c1 (n + k) (fun x hx => h x (List.mem_cons_of_mem s hx))

/-- A session whose primary-row insert hits a duplicate-key conflict is
handled in place: the step raises nothing, and it still attempts the minute
backfill — afterwards every minute key of the session's `levels.data` is
present in the transaction view. -/
theorem syncSleepStep_dup_backfill (c : SleepConn) (s : SleepSession) (log_id : Nat)
    (data : List LevelEntry)
    (hdup : (insertSleepSession c s).2 = some .integrityError)
    (hl : s.logId = some log_id) (hlev : s.levels = some data)
    (hdt : ∀ e ∈ data, e.dateTime.isSome) :
    (syncSleepStep c s).2.2 = none ∧
    ∀ e ∈ data, (log_id, e.dateTime.getD "") ∈ minuteKeys (syncSleepStep c s).1.current := by
  rcases hst : s.startTime with _ | st
  · rw [insertSleepSession] at hdup
    rw [hst] at hdup
    exact absurd hdup (by simp)
  · unfold syncSleepStep
    rcases hins : insertSleepSession c s with ⟨c1, err⟩
    have herr : err = some .integrityError := by rw [hins] at hdup; exact hdup
    subst herr
    rw [hl, hst, hlev]
    obtain ⟨-, -, -, hmem, -⟩ := insertSleepMinutes_spec log_id st data c1 hdt
    exact ⟨rfl, hmem⟩

/-- C5 counterexample: a session lacking a `logId` (all other required fields
present) raises a `KeyError` inside the generic per-session error handler
itself (its logging reads `session['logId']`), so the exception escapes the
loop and aborts the batch: the following session is never attempted (the trace
holds no event for it) and the sync raises — one bad session DOES abort the
batch. -/
theorem C5_session_conflict_counterexample :
    sync_sleep_date ⟨⟨[], []⟩, ⟨[], []⟩, []⟩
        ⟨some [⟨none, some "2025-01-01", some "2025-01-01 22:00:00",
            some "2025-01-02 06:00:00", some 1000, none, none, none, none, none, none,
            none, none, none, none, none, none, none⟩,
          ⟨some 10, some "2025-01-01", some "2025-01-01 00:00:00",
            some "2025-01-01 08:00:00", some 1000, none, none, none, none, none, none,
            none, none, none, none, none, none, none⟩]⟩ =
      (⟨⟨[], []⟩, ⟨[], []⟩, [SleepEvent.cursorOpen]⟩, 0, some PyErr.keyError) := by
  decide

/-- C5 (amended): provided every session in the payload carries a `logId`, the
session loop never lets an exception propagate — a primary-row insert raising
a uniqueness violation on its log id is absorbed, the session row is skipped
and the minute-level children are still attempted (afterwards every minute key
of the conflicting session is stored), and any other per-session exception is
recorded while the remaining sessions are processed.  (A session without a
`logId` instead crashes the error handler itself; see the counterexample.) -/
theorem C5_session_conflict_amended (c : SleepConn) (sessions : List SleepSession)
    (h : ∀ s ∈ sessions, s.logId.isSome) :
    (syncSleepSessions c sessions 0).2.2 = none ∧
    ∀ (c1 : SleepConn) (s : SleepSession) (log_id : Nat) (data : List LevelEntry),
      (insertSleepSession c1 s).2 = some .integrityError →
      s.logId = some log_id → s.levels = some data →
      (∀ e ∈ data, e.dateTime.isSome) →
      (syncSleepStep c1 s).2.2 = none ∧
      ∀ e ∈ data, (log_id, e.dateTime.getD "") ∈ minuteKeys (syncSleepStep c1 s).1.current :=
  ⟨syncSleepSessions_no_raise sessions c 0 h,
   fun c1 s log_id data h1 h2 h3 h4 => syncSleepStep_dup_backfill c1 s log_id data h1 h2 h3 h4⟩

/-- Witness for C5 (amended): a no-conflict one-session batch returns
normally, and a duplicate session (log id 10 already stored) is absorbed by
the step without raising. -/
theorem C5_session_conflict_amended_witness :
    (syncSleepSessions ⟨⟨[], []⟩, ⟨[], []⟩, []⟩
        [⟨some 10, some "2025-01-01", some "2025-01-01 00:00:00",
          some "2025-01-01 08:00:00", some 1000, none, none, none, none, none, none,
          none, none, none, none, none, none, none⟩] 0).2.2 = none ∧
    (syncSleepStep ⟨⟨[10], []⟩, ⟨[10], []⟩, []⟩
        ⟨some 10, some "2025-01-01", some "2025-01-01 00:00:00",
          some "2025-01-01 08:00:00", some 1000, none, none, none, none, none, none,
          none, none, none, none, none, some [⟨some "deep", some "2025-01-01 00:30:00", 60⟩],
          none⟩).2.2 = none :=
  ⟨(C5_session_conflict_amended ⟨⟨[], []⟩, ⟨[], []⟩, []⟩
      [⟨some 10, some "2025-01-01", some "2025-01-01 00:00:00",
        some "2025-01-01 08:00:00", some 1000, none, none, none, none, none, none,
        none, none, none, none, none, none, none⟩] (by decide)).1,
   ((C5_session_conflict_amended ⟨⟨[], []⟩, ⟨[], []⟩, []⟩
      [⟨some 10, some "2025-01-01", some "2025-01-01 00:00:00",
        some "2025-01-01 08:00:00", some 1000, none, none, none, none, none, none,
        none, none, none, none, none, none, none⟩] (by decide)).2
      ⟨⟨[10], []⟩, ⟨[10], []⟩, []⟩
      ⟨some 10, some "2025-01-01", some "2025-01-01 00:00:00",
        some "2025-01-01 08:00:00", some 1000, none, none, none, none, none, none,
        none, none, none, none, none, some [⟨some "deep", some "2025-01-01 00:30:00", 60⟩],
        none⟩ 10 [⟨some "deep", some "2025-01-01 00:30:00", 60⟩]
      (by decide) rfl rfl (by decide)).1⟩

/-- Every month has at least one day. -/
theorem daysInMonth_pos (y m : Nat) : 1 ≤ daysInMonth y m := by
  unfold daysInMonth
  split_ifs <;> omega

/-- No month has more than 31 days. -/
theorem daysInMonth_le (y m : Nat) : daysInMonth y m ≤ 31 := by
  unfold daysInMonth
  split_ifs <;> omega

/-- The `end_date` of the month loop is the month's last day. -/
theorem end_of_month_eq (y m : Nat) (h1 : 1 ≤ m) (h2 : m ≤ 12) :
    end_of_month y m = ⟨y, m, daysInMonth y m⟩ := by
  unfold end_of_month
  by_cases hm : m = 12
  · subst hm
    rw [if_pos rfl]
    have hd : daysInMonth y 12 = 31 := by unfold daysInMonth; norm_num
    rw [hd]
    unfold prevDay
    norm_num
  · rw [if_neg hm]
    unfold prevDay
    have ha : ¬ (1 : Nat) < 1 := by omega
    have hb : (1 : Nat) < m + 1 := by omega
    rw [if_neg ha, if_pos hb]
    simp

/-- Characterisation of the month loop: starting at day `d` of the month it
produces exactly the days `d, d+1, …, last`, in order. -/
theorem genLoop_spec (y m : Nat) :
    ∀ (fuel d : Nat), 1 ≤ d → d ≤ daysInMonth y m →
      daysInMonth y m + 2 - d ≤ fuel →
      genLoop fuel ⟨y, m, d⟩ ⟨y, m, daysInMonth y m⟩ =
        (List.range (daysInMonth y m + 1 - d)).map (fun i => ⟨y, m, d + i⟩) := by
  intro fuel
  induction fuel with
  | zero => intro d h1 h2 h3; omega
  | succ fuel ih =>
      intro d h1 h2 h3
      unfold genLoop
      have hle : dateLe ⟨y, m, d⟩ ⟨y, m, daysInMonth y m⟩ = true := by
        simp [dateLe, h2]
      rw [if_pos hle]
      by_cases hd : d < daysInMonth y m
      · have hnext : nextDay ⟨y, m, d⟩ = ⟨y, m, d + 1⟩ := by simp [nextDay, hd]
        rw [hnext, ih (d + 1) (by omega) (by omega) (by omega)]
        have hr : daysInMonth y m + 1 - d = (daysInMonth y m - d) + 1 := by omega
        have hr2 : daysInMonth y m + 1 - (d + 1) = daysInMonth y m - d := by omega
        rw [hr, hr2, List.range_succ_eq_map, List.map_cons, List.map_map]
        congr 1
        refine List.map_congr_left fun i _ => ?_
        simp only [Function.comp]
        congr 1
        omega
      · have hnext : dateLe (nextDay ⟨y, m, d⟩) ⟨y, m, daysInMonth y m⟩ = false := by
          unfold nextDay
          rw [if_neg hd]
          by_cases hm : m < 12
          · rw [if_pos hm]
            simp [dateLe]
          · rw [if_neg hm]
            simp [dateLe]
        cases fuel with
        | zero => omega
        | succ fuel2 =>
            have hcond : ¬ (dateLe (nextDay ⟨y, m, d⟩) ⟨y, m, daysInMonth y m⟩ = true) := by
              rw [hnext]
              simp
            conv_lhs => unfold genLoop
            rw [if_neg hcond]
            have hone : daysInMonth y m + 1 - d = 1 := by omega
            rw [hone]
            rfl

/-- `generate_date_range` enumerates exactly the days 1 … last of the month,
ascending, each once. -/
theorem generate_date_range_eq (y m : Nat) (h1 : 1 ≤ m) (h2 : m ≤ 12) :
    generate_date_range y m =
      (List.range (daysInMonth y m)).map (fun i => ⟨y, m, i + 1⟩) := by
  unfold generate_date_range
  rw [end_of_month_eq y m h1 h2,
    genLoop_spec y m 400 1 le_rfl (daysInMonth_pos y m)
      (by have := daysInMonth_le y m; omega)]
  have hone : daysInMonth y m + 1 - 1 = daysInMonth y m := by omega
  rw [hone]
  refine List.map_congr_left fun i _ => ?_
  congr 1
  omega

/-- The running-totals fold of the month loop accumulates exactly the
successful per-date results; failed dates contribute nothing and do not stop
the fold. -/
theorem sync_month_fold (sync : CalDate → Except PyErr (Nat × Nat)) :
    ∀ (dates : List CalDate) (a b : Nat),
      dates.foldl (fun acc date =>
        match sync date with
        | .ok (daily, intraday) => (acc.1 + daily, acc.2 + intraday)
        | .error _ => acc) (a, b) =
      (a + (dates.map (fun date =>
          match sync date with
          | .ok r => r.1
          | .error _ => 0)).sum,
       b + (dates.map (fun date =>
          match sync date with
          | .ok r => r.2
          | .error _ => 0)).sum) := by
  intro dates
  induction dates with
  | nil => intro a b; simp
  | cons d rest ih =>
      intro a b
      rcases hsd : sync d with e | r
      · simp only [List.foldl_cons, List.map_cons, hsd, List.sum_cons]
        rw [ih]
        simp only [Prod.mk.injEq]
        omega
      · obtain ⟨dd, ii⟩ := r
        simp only [List.foldl_cons, List.map_cons, hsd, List.sum_cons]
        rw [ih]
        simp only [Prod.mk.injEq]
        omega

/-- C4: for a valid month, the range sync enumerates every calendar day from
the first through the last of the month, ascending and exactly once
(`generate_date_range` is precisely that list); `sync_month` attempts exactly
that list of dates in order regardless of per-date failures, reports the
number of dates attempted, and its daily/intraday totals are the sums of the
successful per-date results (a failed date contributes nothing and does not
halt the loop). -/
theorem C4_month_range (year month : Nat) (sync : CalDate → Except PyErr (Nat × Nat))
    (h1 : 1 ≤ month) (h2 : month ≤ 12) :
    generate_date_range year month =
      (List.range (daysInMonth year month)).map (fun i => ⟨year, month, i + 1⟩) ∧
    (generate_date_range year month).length = daysInMonth year month ∧
    (sync_month sync year month).2 = generate_date_range year month ∧
    (sync_month sync year month).1.2.2 = daysInMonth year month ∧
    (sync_month sync year month).1.1 =
      ((generate_date_range year month).map (fun date =>
        match sync date with
        | .ok r => r.1
        | .error _ => 0)).sum ∧
    (sync_month sync year month).1.2.1 =
      ((generate_date_range year month).map (fun date =>
        match sync date with
        | .ok r => r.2
        | .error _ => 0)).sum := by
  have hlen : (generate_date_range year month).length = daysInMonth year month := by
    rw [generate_date_range_eq year month h1 h2, List.length_map, List.length_range]
  refine ⟨generate_date_range_eq year month h1 h2, hlen, rfl, ?_, ?_, ?_⟩
  · show (generate_date_range year month).length = daysInMonth year month
    exact hlen
  · show ((generate_date_range year month).foldl (fun acc date =>
        match sync date with
        | .ok (daily, intraday) => (acc.1 + daily, acc.2 + intraday)
        | .error _ => acc) (0, 0)).1 = _
    rw [sync_month_fold sync (generate_date_range year month) 0 0]
    omega
  · show ((generate_date_range year month).foldl (fun acc date =>
        match sync date with
        | .ok (daily, intraday) => (acc.1 + daily, acc.2 + intraday)
        | .error _ => acc) (0, 0)).2 = _
    rw [sync_month_fold sync (generate_date_range year month) 0 0]
    omega

/-- Witness for C4 at October 2025 with an all-success collaborator. -/
theorem C4_month_range_witness :
    (1 : Nat) ≤ 10 ∧ (10 : Nat) ≤ 12 ∧
    (sync_month (fun _ => Except.ok (1, 2)) 2025 10).1.2.2 = daysInMonth 2025 10 :=
  ⟨by decide, by decide,
   (C4_month_range 2025 10 (fun _ => Except.ok (1, 2)) (by decide) (by decide)).2.2.2.1⟩

/-- Python's round of a nonnegative value is nonnegative. -/
theorem pythonRound_nonneg (q : ℚ) (h : 0 ≤ q) : 0 ≤ pythonRound q := by
  simp only [pythonRound]
  have hf : (0 : ℤ) ≤ ⌊q⌋ := Int.floor_nonneg.mpr h
  split_ifs <;> omega

/-- Python's round of a value at most 100 is at most 100. -/
theorem pythonRound_le_100 (q : ℚ) (h : q ≤ 100) : pythonRound q ≤ 100 := by
  simp only [pythonRound]
  have hf : ⌊q⌋ ≤ 100 := by
    have h2 : ⌊q⌋ ≤ ⌊(100 : ℚ)⌋ := Int.floor_le_floor h
    simpa using h2
  have hfl : (⌊q⌋ : ℚ) ≤ q := Int.floor_le q
  split_ifs with h1 h2 h3
  · exact hf
  · have h99 : ⌊q⌋ ≤ 99 := by
      by_contra hc
      push_neg at hc
      have hcast : (100 : ℚ) ≤ (⌊q⌋ : ℚ) := by exact_mod_cast hc
      linarith
    omega
  · exact hf
  · have heq : q - ⌊q⌋ = 1 / 2 := le_antisymm (not_lt.mp h2) (not_lt.mp h1)
    have h99 : ⌊q⌋ ≤ 99 := by
      by_contra hc
      push_neg at hc
      have hcast : (100 : ℚ) ≤ (⌊q⌋ : ℚ) := by exact_mod_cast hc
      linarith
    omega

/-- Python's round lands within one half of its argument: the result is a
nearest integer. -/
theorem pythonRound_near (q : ℚ) : |q - pythonRound q| ≤ 1 / 2 := by
  simp only [pythonRound]
  have h0 : (0 : ℚ) ≤ q - ⌊q⌋ := by linarith [Int.floor_le q]
  have h1 : q - ⌊q⌋ < 1 := by linarith [Int.lt_floor_add_one q]
  split_ifs with ha hb hc
  · rw [abs_le]; constructor <;> push_cast <;> linarith
  · rw [abs_le]; constructor <;> push_cast <;> linarith
  · have heq : q - ⌊q⌋ = 1 / 2 := le_antisymm (not_lt.mp hb) (not_lt.mp ha)
    rw [abs_le]; constructor <;> push_cast <;> linarith
  · have heq : q - ⌊q⌋ = 1 / 2 := le_antisymm (not_lt.mp hb) (not_lt.mp ha)
    rw [abs_le]; constructor <;> push_cast <;> linarith

/-- The duration component is clamped to [0, 100] for nonnegative input. -/
theorem duration_score_bounds (x : ℚ) (hx : 0 ≤ x) :
    0 ≤ duration_score x ∧ duration_score x ≤ 100 := by
  simp only [duration_score]
  split_ifs with h1 h2
  · norm_num
  · refine ⟨le_max_left 0 _, max_le (by norm_num) ?_⟩
    have hp : 0 ≤ (7 - x / 60) * 20 := by nlinarith
    linarith
  · refine ⟨le_max_left 0 _, max_le (by norm_num) ?_⟩
    have h7 : 7 ≤ x / 60 := not_lt.mp h2
    have h9 : ¬ x / 60 ≤ 9 := fun hc => h1 ⟨h7, hc⟩
    have hgt : (9 : ℚ) < x / 60 := not_le.mp h9
    have hp : 0 ≤ (x / 60 - 9) * 20 := by nlinarith
    linarith

/-- The quality component equals the efficiency and stays in [0, 100] when the
efficiency does. -/
theorem quality_score_bounds (e : ℚ) (h0 : 0 ≤ e) (h100 : e ≤ 100) :
    0 ≤ quality_score e ∧ quality_score e ≤ 100 := by
  simp only [quality_score]
  split_ifs with h
  · norm_num
  · exact ⟨h0, h100⟩

/-- The restoration component is clamped to [0, 100] for nonnegative
interruption counts and latency. -/
theorem restoration_score_bounds (a r f : ℚ) (ha : 0 ≤ a) (hr : 0 ≤ r) (hf : 0 ≤ f) :
    0 ≤ restoration_score a r f ∧ restoration_score a r f ≤ 100 := by
  simp only [restoration_score]
  refine ⟨le_max_left 0 _, max_le (by norm_num) ?_⟩
  have hpen : 0 ≤ min 50 (a * 5 + r * 2) := le_min (by norm_num) (by nlinarith)
  linarith

/-- C6: for every session with nonnegative minutes asleep and efficiency in
[0, 100] (absent fields defaulting to 0; counts and latency are nonnegative by
construction), the sleep-score calculator is a pure function of the session
whose duration, quality and restoration components each lie in [0, 100]
before the weighted combination, whose result is an integer between 0 and
100, and whose result is the 30/40/30-weighted sum rounded to a nearest
integer (within one half). -/
theorem C6_sleep_score (s : SleepSession)
    (hma : 0 ≤ ((s.minutesAsleep.getD 0 : ℕ) : ℚ))
    (heff : ((s.efficiency.getD 0 : ℕ) : ℚ) ≤ 100) :
    (0 ≤ duration_score ((s.minutesAsleep.getD 0 : ℕ) : ℚ) ∧
      duration_score ((s.minutesAsleep.getD 0 : ℕ) : ℚ) ≤ 100) ∧
    (0 ≤ quality_score ((s.efficiency.getD 0 : ℕ) : ℚ) ∧
      quality_score ((s.efficiency.getD 0 : ℕ) : ℚ) ≤ 100) ∧
    (0 ≤ restoration_score ((s.awakeCount.getD 0 : ℕ) : ℚ)
        ((s.restlessCount.getD 0 : ℕ) : ℚ) ((s.minutesToFallAsleep.getD 0 : ℕ) : ℚ) ∧
      restoration_score ((s.awakeCount.getD 0 : ℕ) : ℚ)
        ((s.restlessCount.getD 0 : ℕ) : ℚ) ((s.minutesToFallAsleep.getD 0 : ℕ) : ℚ) ≤ 100) ∧
    0 ≤ calculateSleepScore s ∧ calculateSleepScore s ≤ 100 ∧
    |(duration_score ((s.minutesAsleep.getD 0 : ℕ) : ℚ) * (30 / 100) +
        quality_score ((s.efficiency.getD 0 : ℕ) : ℚ) * (40 / 100) +
        restoration_score ((s.awakeCount.getD 0 : ℕ) : ℚ)
          ((s.restlessCount.getD 0 : ℕ) : ℚ)
          ((s.minutesToFallAsleep.getD 0 : ℕ) : ℚ) * (30 / 100)) -
      (calculateSleepScore s : ℚ)| ≤ 1 / 2 := by
  have hd := duration_score_bounds ((s.minutesAsleep.getD 0 : ℕ) : ℚ) hma
  have hq := quality_score_bounds ((s.efficiency.getD 0 : ℕ) : ℚ)
    (Nat.cast_nonneg _) heff
  have hr := restoration_score_bounds ((s.awakeCount.getD 0 : ℕ) : ℚ)
    ((s.restlessCount.getD 0 : ℕ) : ℚ) ((s.minutesToFallAsleep.getD 0 : ℕ) : ℚ)
    (Nat.cast_nonneg _) (Nat.cast_nonneg _) (Nat.cast_nonneg _)
  have hsum0 : 0 ≤ duration_score ((s.minutesAsleep.getD 0 : ℕ) : ℚ) * (30 / 100) +
      quality_score ((s.efficiency.getD 0 : ℕ) : ℚ) * (40 / 100) +
      restoration_score ((s.awakeCount.getD 0 : ℕ) : ℚ)
        ((s.restlessCount.getD 0 : ℕ) : ℚ)
        ((s.minutesToFallAsleep.getD 0 : ℕ) : ℚ) * (30 / 100) := by
    linarith [hd.1, hq.1, hr.1]
  have hsum100 : duration_score ((s.minutesAsleep.getD 0 : ℕ) : ℚ) * (30 / 100) +
      quality_score ((s.efficiency.getD 0 : ℕ) : ℚ) * (40 / 100) +
      restoration_score ((s.awakeCount.getD 0 : ℕ) : ℚ)
        ((s.restlessCount.getD 0 : ℕ) : ℚ)
        ((s.minutesToFallAsleep.getD 0 : ℕ) : ℚ) * (30 / 100) ≤ 100 := by
    linarith [hd.2, hq.2, hr.2]
  have hcalc : calculateSleepScore s = pythonRound
      (duration_score ((s.minutesAsleep.getD 0 : ℕ) : ℚ) * (30 / 100) +
        quality_score ((s.efficiency.getD 0 : ℕ) : ℚ) * (40 / 100) +
        restoration_score ((s.awakeCount.getD 0 : ℕ) : ℚ)
          ((s.restlessCount.getD 0 : ℕ) : ℚ)
          ((s.minutesToFallAsleep.getD 0 : ℕ) : ℚ) * (30 / 100)) := rfl
  refine ⟨hd, hq, hr, ?_, ?_, ?_⟩
  · rw [hcalc]; exact pythonRound_nonneg _ hsum0
  · rw [hcalc]; exact pythonRound_le_100 _ hsum100
  · rw [hcalc]; exact pythonRound_near _

/-- Witness for C6 at the spec's example session: 480 minutes asleep (8 h),
efficiency 95, no interruptions. -/
theorem C6_sleep_score_witness :
    0 ≤ calculateSleepScore ⟨none, none, none, none, none, some 95, none, none, none,
        none, none, none, none, some 480, none, none, none, none⟩ ∧
    calculateSleepScore ⟨none, none, none, none, none, some 95, none, none, none,
        none, none, none, none, some 480, none, none, none, none⟩ ≤ 100 :=
  ⟨(C6_sleep_score ⟨none, none, none, none, none, some 95, none, none, none,
      none, none, none, none, some 480, none, none, none, none⟩
      (by norm_num) (by norm_num)).2.2.2.1,
   (C6_sleep_score ⟨none, none, none, none, none, some 95, none, none, none,
      none, none, none, none, some 480, none, none, none, none⟩
      (by norm_num) (by norm_num)).2.2.2.2.1⟩
